import Mathlib

/-!
Verification development for `canonical_form.py` (the `CanonicalForm` class of
the mapreduce backend): a shallow embedding of the type model, the computation
handles, the validating constructor `CanonicalForm.__init__` and the `summary`
renderer, together with theorems settling the specification claims.

Conventions of the embedding:
* TFF types (`computation_types`) form the tagged union `Ty`; named-tuple
  element lists are the companion inductive `TyList` so that equality is
  decidable; function parameters use `OptTy` (a niladic computation has no
  parameter).
* Every `tff.Computation` carries a function type signature, modelled by the
  structure `TypeSignature` (optional parameter, result).
* Python control flow that raises is modelled by `Except Err`.  Each distinct
  `raise` site of the source gets its own `Err` constructor carrying the data
  interpolated into the message; raw Python faults (`len()` of an object with
  no length, subscripting a non-subscriptable object, `IndexError`) get the
  `fault*` constructors.
* The structural-assignability oracle (`type_analysis.check_assignable_from`)
  and the small `py_typecheck` helpers are not under src/ and are modelled
  from the spec, see their doc comments.

All declarations live in the `Mapreduce` namespace (the source module is
`backends/mapreduce/canonical_form.py`); in particular `Computation` here is
`Mapreduce.Computation`, unrelated to Mathlib's.
-/

namespace Mapreduce

mutual

/-- The abstract type algebra (spec section 3): tensor, ordered struct with
optionally named elements (`computation_types.NamedTupleType`), sequence, and
function types. -/
inductive Ty where
  | tensor (dtype : String) (shape : List Nat)
  | struct (elems : TyList)
  | seq (elem : Ty)
  | func (param : OptTy) (result : Ty)
deriving DecidableEq

/-- Element list of a struct type: ordered pairs of optional name and type. -/
inductive TyList where
  | nil
  | cons (name : Option String) (t : Ty) (rest : TyList)
deriving DecidableEq

/-- An optional type, used for the parameter slot of a function type. -/
inductive OptTy where
  | noneT
  | someT (t : Ty)
deriving DecidableEq

end

/-- Number of elements of a struct element list (Python `len` on a
`NamedTupleType`). -/
def TyList.length : TyList → Nat
  | .nil => 0
  | .cons _ _ rest => rest.length + 1

/-- Positional lookup in a struct element list. -/
def TyList.get? : TyList → Nat → Option (Option String × Ty)
  | .nil, _ => none
  | .cons name t _, 0 => some (name, t)
  | .cons _ _ rest, i + 1 => rest.get? i

/-- The type signature attached to every `tff.Computation`
(spec section 3): an optional parameter type and a result type. -/
structure TypeSignature where
  parameter : Option Ty
  result : Ty
deriving DecidableEq

/-- A computation handle as observed by `CanonicalForm.__init__`:
* `is_computation` — whether the value is an instance of
  `computation_base.Computation` (checked by `py_typecheck.check_type`);
* `has_proto` — whether `comp._computation_proto` is a
  `computation_pb2.Computation` message;
* `which_comp` — the result of `comp_proto.WhichOneof('computation')`
  (`none` models an unset oneof);
* `type_signature` — the TFF type signature of the computation. -/
structure Computation where
  is_computation : Bool
  has_proto : Bool
  which_comp : Option String
  type_signature : TypeSignature
deriving DecidableEq

/-- The immutable aggregate of the nine validated stages.  The Python field
`_initialize` is called `initialize_` here. -/
structure CanonicalForm where
  initialize_ : Computation
  prepare : Computation
  work : Computation
  zero : Computation
  accumulate : Computation
  merge : Computation
  report : Computation
  bitwidth : Computation
  update : Computation
deriving DecidableEq

/-- One constructor per distinct `raise` site of `CanonicalForm.__init__`,
carrying the data interpolated into the corresponding message, plus the raw
Python fault modes. -/
inductive Err where
  /-- Failure of `py_typecheck.check_type` on a non-`Computation` value. -/
  | typeCheckFailed (label : String)
  /-- The `AssertionError` of line 298: the embedded computation
  definition cannot be found. -/
  | missingProtoAssertion
  /-- The `TypeError` of lines 300-302: "Expected all computations supplied
  as arguments to be plain TensorFlow, found ..." — the message interpolates
  only the observed kind `which_comp`, not the stage label. -/
  | notTensorFlow (which : Option String)
  /-- lines 304-309: `prepare` parameter vs result of the first stage. -/
  | prepareParamMismatch (actual : Option Ty) (expected : Ty)
  /-- lines 311-316: `work` parameter is not a two-tuple. -/
  | workParamNotPair (actual : Option Ty)
  /-- lines 318-323: second element of the `work` parameter. -/
  | workParamSecondMismatch (actual : Ty) (expected : Ty)
  /-- lines 325-330: `work` result is not a two-tuple. -/
  | workResultNotPair (actual : Ty)
  /-- Failure of `py_typecheck.check_len`: `ValueError` on a wrong length. -/
  | checkLenFailed (expected : Nat) (actual : Nat)
  /-- Failure of `type_analysis.check_assignable_from`: the oracle answered
  negatively. -/
  | notAssignable (target : Ty) (source : Ty)
  /-- lines 339-346: second element of the `accumulate` parameter. -/
  | accumulateSecondMismatch (actual : Ty) (expected : Ty)
  /-- lines 368-377: `update` parameter vs the expected tuple. -/
  | updateParamMismatch (actual : Option Ty) (expected : Ty)
  /-- lines 379-384: `update` result is not a two-tuple. -/
  | updateResultNotPair (actual : Ty)
  /-- lines 386-392: first element of the `update` result. -/
  | updateResultFirstMismatch (actual : Ty) (expected : Ty)
  /-- Python `TypeError`: `len()` of an object with no length. -/
  | faultNoLen
  /-- Python `TypeError`: subscripting a non-subscriptable object. -/
  | faultNotSubscriptable
  /-- Python `IndexError`: positional index out of range. -/
  | faultIndexError
  /-- Python `AttributeError`-level fault: the assignability oracle applied
  to an absent (`None`) parameter type. -/
  | faultNone
deriving DecidableEq

/-- Whether an error value is a raw Python fault rather than one of the
errors the constructor raises deliberately. -/
def Err.isFault : Err → Bool
  | .faultNoLen => true
  | .faultNotSubscriptable => true
  | .faultIndexError => true
  | .faultNone => true
  | _ => false

/-- Python subscript `t[i]` on a TFF type: positional element of a struct;
subscripting any other type is a fault, as is an out-of-range index. -/
def getItem (t : Ty) (i : Nat) : Except Err Ty :=
  match t with
  | .struct elems =>
      match elems.get? i with
      | some e => .ok e.2
      | none => .error .faultIndexError
  | _ => .error .faultNotSubscriptable

/-- Python subscript on a possibly absent parameter type (`None[i]` is a
fault). -/
def getParamItem (p : Option Ty) (i : Nat) : Except Err Ty :=
  match p with
  | some t => getItem t i
  | none => .error .faultNotSubscriptable

/-- Modelled from the spec: `py_typecheck.check_len` is not under src/.  It
takes `len(target)` — a fault unless the type is a struct — and raises
`ValueError` when the length differs from the expected one (the spec's
`ShapeMismatch` with expected arity and actual type). -/
def check_len (p : Option Ty) (n : Nat) : Except Err Unit :=
  match p with
  | some (.struct elems) =>
      if elems.length = n then .ok () else .error (.checkLenFailed n elems.length)
  | some _ => .error .faultNoLen
  | none => .error .faultNoLen

/-- Modelled from the spec: the type compatibility oracle
`type_analysis.check_assignable_from` is not under src/.  Per spec section
4.2 it answers `assignable_from(target, source) -> bool`, a negative answer
being a checked failure; the oracle itself is a parameter `assignable`
throughout this development. -/
def check_assignable_from (assignable : Ty → Ty → Bool) (target source : Ty) :
    Except Err Unit :=
  if assignable target source then .ok () else .error (.notAssignable target source)

/-- Modelled from the spec: the oracle contract takes two types, so handing
it an absent (`None`) parameter type is a fault, not a checked failure. -/
def check_assignable_param (assignable : Ty → Ty → Bool) (target : Option Ty)
    (source : Ty) : Except Err Unit :=
  match target with
  | some t => check_assignable_from assignable t source
  | none => .error .faultNone

/-- The test `isinstance(t, NamedTupleType) and len(t) == 2`. -/
def isTwoTuple : Ty → Bool
  | .struct elems => elems.length == 2
  | _ => false

/-- Lines 279-302: the per-handle loop.  For each labelled computation, in
order: the `py_typecheck.check_type` instance check, the embedded-proto
assertion, and the kind (oneof) check against `'tensorflow'`. -/
def checkKindLoop : List (String × Computation) → Except Err Unit
  | [] => .ok ()
  | (label, comp) :: rest =>
      if comp.is_computation then
        if comp.has_proto then
          if comp.which_comp = some "tensorflow" then checkKindLoop rest
          else .error (.notTensorFlow comp.which_comp)
        else .error .missingProtoAssertion
      else .error (.typeCheckFailed label)

/-- The labelled stage list exactly as built at lines 279-289. -/
def stageList (initialize_ prepare work zero accumulate merge report bitwidth
    update : Computation) : List (String × Computation) :=
  [("initialize", initialize_), ("prepare", prepare), ("work", work),
   ("zero", zero), ("accumulate", accumulate), ("merge", merge),
   ("report", report), ("bitwidth", bitwidth), ("update", update)]

/-- Lines 304-309: the `prepare` parameter must equal the result of the
first stage. -/
def checkPrepare (initialize_ prepare : Computation) : Except Err Unit :=
  if prepare.type_signature.parameter = some initialize_.type_signature.result
  then .ok ()
  else .error (.prepareParamMismatch prepare.type_signature.parameter
      initialize_.type_signature.result)

/-- Lines 311-330: the `work` parameter must be a two-tuple whose second
element equals the `prepare` result, and the `work` result must be a
two-tuple. -/
def checkWorkSignature (prepare work : Computation) : Except Err Unit :=
  match work.type_signature.parameter with
  | some t =>
      if isTwoTuple t then
        match getItem t 1 with
        | .error e => .error e
        | .ok second =>
            if second = prepare.type_signature.result then
              if isTwoTuple work.type_signature.result then .ok ()
              else .error (.workResultNotPair work.type_signature.result)
            else .error (.workParamSecondMismatch second
                prepare.type_signature.result)
      else .error (.workParamNotPair (some t))
  | none => .error (.workParamNotPair none)

/-- Line 332: `py_typecheck.check_type(zero.type_signature, FunctionType)`.
In this model every type signature is a (parameter, result) function
signature, so the check always succeeds. -/
def checkZero (_zero : Computation) : Except Err Unit := .ok ()

/-- Lines 334-348: the `accumulate` parameter has length 2; its first
element is assignable from the `zero` result; its second element equals
`work.type_signature.result[0][0]`; and its first element is assignable
from the `accumulate` result.  Note the nested subscript into the first
element of the `work` result is not preceded by any shape check. -/
def checkAccumulate (assignable : Ty → Ty → Bool)
    (zero accumulate work : Computation) : Except Err Unit :=
  match check_len accumulate.type_signature.parameter 2 with
  | .error e => .error e
  | .ok _ =>
  match getParamItem accumulate.type_signature.parameter 0 with
  | .error e => .error e
  | .ok a0 =>
  match check_assignable_from assignable a0 zero.type_signature.result with
  | .error e => .error e
  | .ok _ =>
  match getParamItem accumulate.type_signature.parameter 1 with
  | .error e => .error e
  | .ok a1 =>
  match getItem work.type_signature.result 0 with
  | .error e => .error e
  | .ok w0 =>
  match getItem w0 0 with
  | .error e => .error e
  | .ok w00 =>
  if a1 = w00 then
    match getParamItem accumulate.type_signature.parameter 0 with
    | .error e => .error e
    | .ok a0b => check_assignable_from assignable a0b
        accumulate.type_signature.result
  else .error (.accumulateSecondMismatch a1 w00)

/-- Lines 350-358: the `merge` parameter has length 2, both elements are
assignable from the `accumulate` result, and the first is assignable from
the `merge` result. -/
def checkMerge (assignable : Ty → Ty → Bool) (accumulate merge : Computation) :
    Except Err Unit :=
  match check_len merge.type_signature.parameter 2 with
  | .error e => .error e
  | .ok _ =>
  match getParamItem merge.type_signature.parameter 0 with
  | .error e => .error e
  | .ok m0 =>
  match check_assignable_from assignable m0 accumulate.type_signature.result with
  | .error e => .error e
  | .ok _ =>
  match getParamItem merge.type_signature.parameter 1 with
  | .error e => .error e
  | .ok m1 =>
  match check_assignable_from assignable m1 accumulate.type_signature.result with
  | .error e => .error e
  | .ok _ =>
  match getParamItem merge.type_signature.parameter 0 with
  | .error e => .error e
  | .ok m0b => check_assignable_from assignable m0b merge.type_signature.result

/-- Lines 360-363: the `report` parameter is assignable from the `merge`
result. -/
def checkReport (assignable : Ty → Ty → Bool) (merge report : Computation) :
    Except Err Unit :=
  check_assignable_param assignable report.type_signature.parameter
    merge.type_signature.result

/-- Lines 365-366: function-type check on the `bitwidth` signature, which
always succeeds in this model (see `checkZero`). -/
def checkBitwidth (_bitwidth : Computation) : Except Err Unit := .ok ()

/-- The conversion `computation_types.to_type` on a two-element Python
list: an unnamed two-element struct
(modelled from the spec's structural type model; `to_type` is not under
src/). -/
def toTypePair (a b : Ty) : Ty :=
  .struct (.cons none a (.cons none b .nil))

/-- Lines 368-392: the `update` parameter must equal
`[initialize.result, [report.result, work.result[0][1]]]`; the `update`
result must be a two-tuple whose first element equals the result of the
first stage.  The nested subscript `work.type_signature.result[0][1]` is
again unguarded. -/
def checkUpdate (initialize_ report work update : Computation) :
    Except Err Unit :=
  match getItem work.type_signature.result 0 with
  | .error e => .error e
  | .ok w0 =>
  match getItem w0 1 with
  | .error e => .error e
  | .ok w01 =>
  let expected : Ty := toTypePair initialize_.type_signature.result
      (toTypePair report.type_signature.result w01)
  if update.type_signature.parameter = some expected then
    if isTwoTuple update.type_signature.result then
      match getItem update.type_signature.result 0 with
      | .error e => .error e
      | .ok u0 =>
          if u0 = initialize_.type_signature.result then .ok ()
          else .error (.updateResultFirstMismatch u0
              initialize_.type_signature.result)
    else .error (.updateResultNotPair update.type_signature.result)
  else .error (.updateParamMismatch update.type_signature.parameter expected)

/-- The constructor `CanonicalForm.__init__` (lines 251-402): the
per-handle loop followed
by the cross-stage checks in source order; only after every check has
passed are the nine fields assigned. -/
def construct (assignable : Ty → Ty → Bool)
    (initialize_ prepare work zero accumulate merge report bitwidth
     update : Computation) : Except Err CanonicalForm :=
  match checkKindLoop (stageList initialize_ prepare work zero accumulate
      merge report bitwidth update) with
  | .error e => .error e
  | .ok _ =>
  match checkPrepare initialize_ prepare with
  | .error e => .error e
  | .ok _ =>
  match checkWorkSignature prepare work with
  | .error e => .error e
  | .ok _ =>
  match checkZero zero with
  | .error e => .error e
  | .ok _ =>
  match checkAccumulate assignable zero accumulate work with
  | .error e => .error e
  | .ok _ =>
  match checkMerge assignable accumulate merge with
  | .error e => .error e
  | .ok _ =>
  match checkReport assignable merge report with
  | .error e => .error e
  | .ok _ =>
  match checkBitwidth bitwidth with
  | .error e => .error e
  | .ok _ =>
  match checkUpdate initialize_ report work update with
  | .error e => .error e
  | .ok _ =>
      .ok ⟨initialize_, prepare, work, zero, accumulate, merge, report,
           bitwidth, update⟩

/-- The Python format specification used at line 460: left justification
padded with spaces to a minimum width of ten characters. -/
def leftJustify10 (s : String) : String :=
  s ++ String.mk (List.replicate (10 - s.length) ' ')

/-- The renderer `CanonicalForm.summary` (lines 440-461): the list of
lines handed to
`print_fn`, one per stage in fixed order; `rend` models
`compact_representation` of a type signature (external rendering, spec
section 4.4).  Note the pair for the `update` line is built from
`self.initialize` in the source. -/
def CanonicalForm.summary (cf : CanonicalForm)
    (rend : TypeSignature → String) : List String :=
  [("initialize", cf.initialize_), ("prepare", cf.prepare),
   ("work", cf.work), ("zero", cf.zero), ("accumulate", cf.accumulate),
   ("merge", cf.merge), ("report", cf.report), ("bitwidth", cf.bitwidth),
   ("update", cf.initialize_)].map
    (fun nc => leftJustify10 nc.1 ++ ": " ++ rend nc.2.type_signature)

/-- Replace the parameter of a computation's type signature, keeping every
other observable field. -/
def Computation.setParam (c : Computation) (q : Option Ty) : Computation :=
  ⟨c.is_computation, c.has_proto, c.which_comp, ⟨q, c.type_signature.result⟩⟩

/-- Replace the kind (oneof) tag of a computation. -/
def Computation.setKind (c : Computation) (k : Option String) : Computation :=
  ⟨c.is_computation, c.has_proto, k, c.type_signature⟩

/-- Replace the `update` field of a canonical form. -/
def CanonicalForm.setUpdate (cf : CanonicalForm) (u : Computation) :
    CanonicalForm :=
  ⟨cf.initialize_, cf.prepare, cf.work, cf.zero, cf.accumulate, cf.merge,
   cf.report, cf.bitwidth, u⟩

/-- The success/error status of a construction outcome (`none` on success). -/
def statusOf : Except Err CanonicalForm → Option Err
  | .ok _ => none
  | .error e => some e

/-- Whether a construction outcome is free of raw Python faults. -/
def noFaultStatus : Except Err CanonicalForm → Bool
  | .ok _ => true
  | .error e => !e.isFault

/-- The parameter is present and a struct type. -/
def isSomeStruct : Option Ty → Bool
  | some (.struct _) => true
  | _ => false

/-- If the `work` result is a non-empty struct, its first element is a
struct with at least two elements (so the nested subscripts
`result[0][0]` and `result[0][1]` are defined). -/
def workNestedShapeOk : Ty → Bool
  | .struct (.cons _ w0 _) =>
      match w0 with
      | .struct (.cons _ _ (.cons _ _ _)) => true
      | _ => false
  | _ => true

/-! ### Spec-side invariants

The following predicates follow the words of the invariant table of spec
section 3 (I1 to I12), to be compared with the behaviour of `construct`.
They are deliberately written from the spec, not from the source. -/

/-- Spec I1: `prepare.parameter == initialize.result`. -/
def specI1 (initialize_ prepare : Computation) : Bool :=
  prepare.type_signature.parameter == some initialize_.type_signature.result

/-- Spec I2: `work.parameter` is a 2-element struct whose second element
equals `prepare.result`. -/
def specI2 (prepare work : Computation) : Bool :=
  match work.type_signature.parameter with
  | some (.struct (.cons _ _ (.cons _ c .nil))) =>
      c == prepare.type_signature.result
  | _ => false

/-- Spec I3: `work.result` is a 2-element struct. -/
def specI3 (work : Computation) : Bool :=
  match work.type_signature.result with
  | .struct (.cons _ _ (.cons _ _ .nil)) => true
  | _ => false

/-- Spec I4: `zero.parameter` is empty (niladic). -/
def specI4 (zero : Computation) : Bool :=
  zero.type_signature.parameter == none

/-- Spec I5: `accumulate.parameter` is a 2-tuple `(A', U')` with `A'`
assignable from `zero.result` and `U'` structurally equal to the per-client
update type nested inside the first element of `work.result`. -/
def specI5 (assignable : Ty → Ty → Bool)
    (zero accumulate work : Computation) : Bool :=
  match accumulate.type_signature.parameter with
  | some (.struct (.cons _ a' (.cons _ u' .nil))) =>
      assignable a' zero.type_signature.result &&
      (match work.type_signature.result with
       | .struct (.cons _ (.struct (.cons _ u _)) _) => u' == u
       | _ => false)
  | _ => false

/-- Spec I6: the first element of `accumulate.parameter` is assignable from
`accumulate.result`. -/
def specI6 (assignable : Ty → Ty → Bool) (accumulate : Computation) : Bool :=
  match accumulate.type_signature.parameter with
  | some (.struct (.cons _ a' (.cons _ _ .nil))) =>
      assignable a' accumulate.type_signature.result
  | _ => false

/-- Spec I7: `merge.parameter` is a 2-tuple, each element assignable from
`accumulate.result`, and its first element assignable from `merge.result`. -/
def specI7 (assignable : Ty → Ty → Bool) (accumulate merge : Computation) :
    Bool :=
  match merge.type_signature.parameter with
  | some (.struct (.cons _ m0 (.cons _ m1 .nil))) =>
      assignable m0 accumulate.type_signature.result &&
      assignable m1 accumulate.type_signature.result &&
      assignable m0 merge.type_signature.result
  | _ => false

/-- Spec I8: `report.parameter` is assignable from `merge.result`. -/
def specI8 (assignable : Ty → Ty → Bool) (merge report : Computation) : Bool :=
  match report.type_signature.parameter with
  | some t => assignable t merge.type_signature.result
  | none => false

/-- Spec I9: `bitwidth` is a function type.  In this model every
computation's signature is a (parameter, result) function signature, so
this holds structurally. -/
def specI9 (_bitwidth : Computation) : Bool := true

/-- The side-output type of the `work` result: the second element nested
inside the first element of `work.result`. -/
def sideOutputOf : Ty → Option Ty
  | .struct (.cons _ (.struct (.cons _ _ (.cons _ s _))) _) => some s
  | _ => none

/-- Spec I10: `update.parameter` equals the 2-tuple of `initialize.result`
and the 2-tuple of `report.result` and the side-output type taken from the
`work` result. -/
def specI10 (initialize_ report work update : Computation) : Bool :=
  match sideOutputOf work.type_signature.result with
  | some s =>
      update.type_signature.parameter ==
        some (toTypePair initialize_.type_signature.result
          (toTypePair report.type_signature.result s))
  | none => false

/-- Spec I11: `update.result` is a 2-tuple `(S', X)` with `S'` equal to
`initialize.result`. -/
def specI11 (initialize_ update : Computation) : Bool :=
  match update.type_signature.result with
  | .struct (.cons _ s' (.cons _ _ .nil)) =>
      s' == initialize_.type_signature.result
  | _ => false

/-- Spec I12: every one of the nine handles has kind `NativeKernel`, i.e.
its descriptor oneof is `'tensorflow'`. -/
def specI12 (initialize_ prepare work zero accumulate merge report bitwidth
    update : Computation) : Bool :=
  [initialize_, prepare, work, zero, accumulate, merge, report, bitwidth,
   update].all (fun c => c.which_comp == some "tensorflow")

/-- The conjunction of the spec invariants I1 to I12. -/
def specInvariants (assignable : Ty → Ty → Bool)
    (initialize_ prepare work zero accumulate merge report bitwidth
     update : Computation) : Bool :=
  specI1 initialize_ prepare && specI2 prepare work && specI3 work &&
  specI4 zero && specI5 assignable zero accumulate work &&
  specI6 assignable accumulate && specI7 assignable accumulate merge &&
  specI8 assignable merge report && specI9 bitwidth &&
  specI10 initialize_ report work update && specI11 initialize_ update &&
  specI12 initialize_ prepare work zero accumulate merge report bitwidth update

/-- The conjunction of the spec invariants that `construct` actually
enforces: all of I1 to I12 except the niladicity half of I4 (the code never
looks at `zero.parameter`; the `zero.result` half of I4 only names the
abstract type `A` and imposes no constraint). -/
def specInvariantsChecked (assignable : Ty → Ty → Bool)
    (initialize_ prepare work zero accumulate merge report bitwidth
     update : Computation) : Bool :=
  specI1 initialize_ prepare && specI2 prepare work && specI3 work &&
  specI5 assignable zero accumulate work &&
  specI6 assignable accumulate && specI7 assignable accumulate merge &&
  specI8 assignable merge report && specI9 bitwidth &&
  specI10 initialize_ report work update && specI11 initialize_ update &&
  specI12 initialize_ prepare work zero accumulate merge report bitwidth update

/-- A handle passes the per-handle representation checks: it is a
`Computation` instance and carries an embedded computation proto. -/
def Computation.wf (c : Computation) : Bool :=
  c.is_computation && c.has_proto

/-! ### Concrete fixtures

The success scenario of spec section 8: `S = C = U = A = R = int32`,
`D = sequence of int32`, `X = Y = empty struct`; the secure-sum side output
carried as the second element inside the first element of the `work` result
is also `int32`. -/

/-- A scalar `int32` tensor type. -/
def int32 : Ty := .tensor "int32" []

/-- A scalar `float32` tensor type. -/
def float32 : Ty := .tensor "float32" []

/-- The empty struct type. -/
def emptyStruct : Ty := .struct .nil

/-- A well-formed plain-TensorFlow computation with the given signature. -/
def tfComp (p : Option Ty) (r : Ty) : Computation :=
  ⟨true, true, some "tensorflow", ⟨p, r⟩⟩

/-- Baseline first stage: `( -> S)`. -/
def initBase : Computation := tfComp none int32

/-- Baseline `prepare`: `(S -> C)`. -/
def prepareBase : Computation := tfComp (some int32) int32

/-- Baseline `work`: `(<D,C> -> <<U,B>,Y>)`. -/
def workBase : Computation :=
  tfComp (some (toTypePair (.seq int32) int32))
    (toTypePair (toTypePair int32 int32) emptyStruct)

/-- Baseline `zero`: `( -> A)`. -/
def zeroBase : Computation := tfComp none int32

/-- Baseline `accumulate`: `(<A,U> -> A)`. -/
def accumulateBase : Computation := tfComp (some (toTypePair int32 int32)) int32

/-- Baseline `merge`: `(<A,A> -> A)`. -/
def mergeBase : Computation := tfComp (some (toTypePair int32 int32)) int32

/-- Baseline `report`: `(A -> R)`. -/
def reportBase : Computation := tfComp (some int32) int32

/-- Baseline `bitwidth`: `( -> B)`. -/
def bitwidthBase : Computation := tfComp none int32

/-- Baseline `update`: `(<S,<R,B>> -> <S,X>)`. -/
def updateBase : Computation :=
  tfComp (some (toTypePair int32 (toTypePair int32 int32)))
    (toTypePair int32 emptyStruct)

/-- Structural equality as an assignability oracle (the spec's convention
`assignable_from(t, t) == true` makes this the minimal admissible oracle). -/
def eqOracle : Ty → Ty → Bool := fun a b => a == b

/-- Whether an error is the kind-mismatch error of lines 300-302. -/
def Err.isKindError : Err → Bool
  | .notTensorFlow _ => true
  | _ => false

/-! ### Helper lemmas about the building blocks -/

theorem getItem_error {t : Ty} {i : Nat} {e : Err} (h : getItem t i = .error e) :
    e = .faultNotSubscriptable ∨ e = .faultIndexError := by
  unfold getItem at h
  split at h
  · split at h
    · exact absurd h (by simp)
    · injection h with h; subst h; simp
  · injection h with h; subst h; simp

theorem check_len_error {p : Option Ty} {n : Nat} {e : Err}
    (h : check_len p n = .error e) :
    e = .faultNoLen ∨ ∃ m, e = .checkLenFailed n m := by
  unfold check_len at h
  split at h
  · split at h
    · exact absurd h (by simp)
    · injection h with h; subst h; simp
  · injection h with h; subst h; simp
  · injection h with h; subst h; simp

theorem check_assignable_from_error {f : Ty → Ty → Bool} {t s : Ty} {e : Err}
    (h : check_assignable_from f t s = .error e) : e = .notAssignable t s := by
  unfold check_assignable_from at h
  split at h
  · exact absurd h (by simp)
  · injection h with h; subst h; rfl

theorem check_assignable_param_error {f : Ty → Ty → Bool} {p : Option Ty}
    {s : Ty} {e : Err} (h : check_assignable_param f p s = .error e) :
    e = .faultNone ∨ ∃ t, e = .notAssignable t s := by
  unfold check_assignable_param at h
  split at h
  · right; exact ⟨_, check_assignable_from_error h⟩
  · injection h with h; subst h; simp

/-! ### The per-handle loop -/

theorem checkKindLoop_isOk_iff (l : List (String × Computation)) :
    (checkKindLoop l).isOk = true ↔
      ∀ s ∈ l, s.2.is_computation = true ∧ s.2.has_proto = true ∧
        s.2.which_comp = some "tensorflow" := by
  induction l with
  | nil => simp [checkKindLoop, Except.isOk, Except.toBool]
  | cons hd tl ih =>
      obtain ⟨label, c⟩ := hd
      by_cases h1 : c.is_computation
      · by_cases h2 : c.has_proto
        · by_cases h3 : c.which_comp = some "tensorflow"
          · simp [checkKindLoop, h1, h2, h3, ih]
          · simp [checkKindLoop, h1, h2, h3, Except.isOk, Except.toBool]
        · simp [checkKindLoop, h1, h2, Except.isOk, Except.toBool]
      · simp [checkKindLoop, h1, Except.isOk, Except.toBool]

theorem checkKindLoop_error_of_bad {l : List (String × Computation)}
    (hwf : ∀ s ∈ l, s.2.wf = true)
    (hbad : ∃ s ∈ l, s.2.which_comp ≠ some "tensorflow") :
    ∃ k, k ≠ some "tensorflow" ∧ checkKindLoop l = .error (.notTensorFlow k) := by
  induction l with
  | nil => simp at hbad
  | cons hd tl ih =>
      obtain ⟨label, c⟩ := hd
      have hc : c.wf = true := hwf (label, c) (List.mem_cons_self _ _)
      simp only [Computation.wf, Bool.and_eq_true] at hc
      by_cases h3 : c.which_comp = some "tensorflow"
      · obtain ⟨s, hs, hsbad⟩ := hbad
        rcases List.mem_cons.mp hs with h | h
        · subst h; exact absurd h3 hsbad
        · obtain ⟨k, hk, hloop⟩ :=
            ih (fun s hs => hwf s (List.mem_cons_of_mem _ hs)) ⟨s, h, hsbad⟩
          exact ⟨k, hk, by simp [checkKindLoop, hc.1, hc.2, h3, hloop]⟩
      · exact ⟨c.which_comp, h3, by simp [checkKindLoop, hc.1, hc.2, h3]⟩

theorem checkKindLoop_missing_proto {l : List (String × Computation)}
    (h1 : ∀ s ∈ l, s.2.is_computation = true)
    (h2 : ∀ s ∈ l, s.2.has_proto = true → s.2.which_comp = some "tensorflow")
    (h3 : ∃ s ∈ l, s.2.has_proto = false) :
    checkKindLoop l = .error .missingProtoAssertion := by
  induction l with
  | nil => simp at h3
  | cons hd tl ih =>
      obtain ⟨label, c⟩ := hd
      have hc1 : c.is_computation = true := h1 (label, c) (List.mem_cons_self _ _)
      by_cases hp : c.has_proto
      · have hk : c.which_comp = some "tensorflow" :=
          h2 (label, c) (List.mem_cons_self _ _) hp
        obtain ⟨s, hs, hsp⟩ := h3
        rcases List.mem_cons.mp hs with h | h
        · subst h; simp [hp] at hsp
        · have := ih (fun s hs => h1 s (List.mem_cons_of_mem _ hs))
            (fun s hs => h2 s (List.mem_cons_of_mem _ hs)) ⟨s, h, hsp⟩
          simp [checkKindLoop, hc1, hp, hk, this]
      · simp [checkKindLoop, hc1, hp]

theorem checkKindLoop_error_kind {l : List (String × Computation)}
    {k : Option String} (h : checkKindLoop l = .error (.notTensorFlow k)) :
    k ≠ some "tensorflow" ∧ ∃ s ∈ l, s.2.which_comp = k := by
  induction l with
  | nil => simp [checkKindLoop] at h
  | cons hd tl ih =>
      obtain ⟨label, c⟩ := hd
      by_cases h1 : c.is_computation
      · by_cases h2 : c.has_proto
        · by_cases h3 : c.which_comp = some "tensorflow"
          · rw [show checkKindLoop ((label, c) :: tl) = checkKindLoop tl by
              simp [checkKindLoop, h1, h2, h3]] at h
            obtain ⟨hk, s, hs, hsk⟩ := ih h
            exact ⟨hk, s, List.mem_cons_of_mem _ hs, hsk⟩
          · rw [show checkKindLoop ((label, c) :: tl) =
                .error (.notTensorFlow c.which_comp) by
              simp [checkKindLoop, h1, h2, h3]] at h
            injection h with h
            injection h with h
            exact ⟨h ▸ h3, (label, c), List.mem_cons_self _ _, h⟩
        · rw [show checkKindLoop ((label, c) :: tl) =
              .error .missingProtoAssertion by
            simp [checkKindLoop, h1, h2]] at h
          injection h with h
          exact absurd h.symm (by simp)
      · rw [show checkKindLoop ((label, c) :: tl) =
            .error (.typeCheckFailed label) by simp [checkKindLoop, h1]] at h
        injection h with h
        exact absurd h.symm (by simp)

theorem checkKindLoop_error_no_fault {l : List (String × Computation)} {e : Err}
    (h : checkKindLoop l = .error e) : e.isFault = false := by
  induction l with
  | nil => simp [checkKindLoop] at h
  | cons hd tl ih =>
      obtain ⟨label, c⟩ := hd
      by_cases h1 : c.is_computation
      · by_cases h2 : c.has_proto
        · by_cases h3 : c.which_comp = some "tensorflow"
          · rw [show checkKindLoop ((label, c) :: tl) = checkKindLoop tl by
              simp [checkKindLoop, h1, h2, h3]] at h
            exact ih h
          · rw [show checkKindLoop ((label, c) :: tl) =
                .error (.notTensorFlow c.which_comp) by
              simp [checkKindLoop, h1, h2, h3]] at h
            injection h with h; subst h; rfl
        · rw [show checkKindLoop ((label, c) :: tl) =
              .error .missingProtoAssertion by simp [checkKindLoop, h1, h2]] at h
          injection h with h; subst h; rfl
      · rw [show checkKindLoop ((label, c) :: tl) =
            .error (.typeCheckFailed label) by simp [checkKindLoop, h1]] at h
        injection h with h; subst h; rfl

/-! ### Decomposition of `construct` into its checks -/

theorem construct_isOk (assignable : Ty → Ty → Bool)
    (i p w z a m r b u : Computation) :
    (construct assignable i p w z a m r b u).isOk =
      ((checkKindLoop (stageList i p w z a m r b u)).isOk &&
       (checkPrepare i p).isOk && (checkWorkSignature p w).isOk &&
       (checkAccumulate assignable z a w).isOk &&
       (checkMerge assignable a m).isOk && (checkReport assignable m r).isOk &&
       (checkUpdate i r w u).isOk) := by
  unfold construct checkZero checkBitwidth
  cases h0 : checkKindLoop (stageList i p w z a m r b u) <;>
    simp only [h0, Except.isOk, Except.toBool, Bool.false_and, Bool.true_and]
  cases h1 : checkPrepare i p <;>
    simp only [h1, Except.isOk, Except.toBool, Bool.false_and, Bool.true_and]
  cases h2 : checkWorkSignature p w <;>
    simp only [h2, Except.isOk, Except.toBool, Bool.false_and, Bool.true_and]
  cases h3 : checkAccumulate assignable z a w <;>
    simp only [h3, Except.isOk, Except.toBool, Bool.false_and, Bool.true_and]
  cases h4 : checkMerge assignable a m <;>
    simp only [h4, Except.isOk, Except.toBool, Bool.false_and, Bool.true_and]
  cases h5 : checkReport assignable m r <;>
    simp only [h5, Except.isOk, Except.toBool, Bool.false_and, Bool.true_and]
  cases h6 : checkUpdate i r w u <;>
    simp only [h6, Except.isOk, Except.toBool, Bool.false_and, Bool.true_and]

theorem construct_error_cases {assignable : Ty → Ty → Bool}
    {i p w z a m r b u : Computation} {e : Err}
    (h : construct assignable i p w z a m r b u = .error e) :
    checkKindLoop (stageList i p w z a m r b u) = .error e ∨
    checkPrepare i p = .error e ∨
    checkWorkSignature p w = .error e ∨
    ((checkWorkSignature p w).isOk = true ∧
      checkAccumulate assignable z a w = .error e) ∨
    checkMerge assignable a m = .error e ∨
    checkReport assignable m r = .error e ∨
    ((checkWorkSignature p w).isOk = true ∧ checkUpdate i r w u = .error e) := by
  unfold construct at h
  cases h0 : checkKindLoop (stageList i p w z a m r b u) <;> rw [h0] at h
  case error => exact Or.inl (by injection h with h; rw [h])
  cases h1 : checkPrepare i p <;> rw [h1] at h
  case error => exact Or.inr (Or.inl (by injection h with h; rw [h]))
  cases h2 : checkWorkSignature p w <;> rw [h2] at h
  case error => exact Or.inr (Or.inr (Or.inl (by injection h with h; rw [h])))
  simp only [checkZero] at h
  cases h3 : checkAccumulate assignable z a w <;> rw [h3] at h
  case error =>
    refine Or.inr (Or.inr (Or.inr (Or.inl ⟨by simp [h2, Except.isOk, Except.toBool], ?_⟩)))
    injection h with h; rw [h]
  cases h4 : checkMerge assignable a m <;> rw [h4] at h
  case error =>
    exact Or.inr (Or.inr (Or.inr (Or.inr (Or.inl (by injection h with h; rw [h])))))
  cases h5 : checkReport assignable m r <;> rw [h5] at h
  case error =>
    exact Or.inr (Or.inr (Or.inr (Or.inr (Or.inr (Or.inl
      (by injection h with h; rw [h]))))))
  simp only [checkBitwidth] at h
  cases h6 : checkUpdate i r w u <;> rw [h6] at h
  case error =>
    refine Or.inr (Or.inr (Or.inr (Or.inr (Or.inr (Or.inr
      ⟨by simp [h2, Except.isOk, Except.toBool], ?_⟩)))))
    injection h with h; rw [h]
  simp at h

theorem construct_of_loop_error {assignable : Ty → Ty → Bool}
    {i p w z a m r b u : Computation} {e : Err}
    (h : checkKindLoop (stageList i p w z a m r b u) = .error e) :
    construct assignable i p w z a m r b u = .error e := by
  unfold construct
  rw [h]

/-! ### Per-check correspondence with the spec invariants -/

@[simp] theorem isOk_ok {α : Type} (x : α) :
    (Except.ok x : Except Err α).isOk = true := rfl

@[simp] theorem isOk_error {α : Type} (e : Err) :
    (Except.error e : Except Err α).isOk = false := rfl

theorem isTwoTuple_shape (t : Ty) :
    isTwoTuple t =
      (match t with
       | .struct (.cons _ _ (.cons _ _ .nil)) => true
       | _ => false) := by
  cases t with
  | struct elems =>
      cases elems with
      | nil => rfl
      | cons n0 a rest =>
          cases rest with
          | nil => rfl
          | cons n1 b rest2 => cases rest2 <;> rfl
  | tensor d s => rfl
  | seq e => rfl
  | func p r => rfl

theorem specI3_eq (w : Computation) :
    specI3 w = isTwoTuple w.type_signature.result := by
  rw [isTwoTuple_shape]
  rfl

@[simp] theorem isTwoTuple_pair (n0 : Option String) (a : Ty)
    (n1 : Option String) (b : Ty) :
    isTwoTuple (.struct (.cons n0 a (.cons n1 b .nil))) = true := rfl

theorem checkPrepare_isOk (i p : Computation) :
    (checkPrepare i p).isOk = specI1 i p := by
  unfold checkPrepare specI1
  by_cases h : p.type_signature.parameter = some i.type_signature.result <;>
    simp [h]

theorem checkWorkSignature_isOk (p w : Computation) :
    (checkWorkSignature p w).isOk = (specI2 p w && specI3 w) := by
  unfold checkWorkSignature specI2
  rw [specI3_eq]
  cases hp : w.type_signature.parameter with
  | none => simp
  | some t =>
      cases t with
      | tensor d s => simp [isTwoTuple]
      | seq e => simp [isTwoTuple]
      | func q r => simp [isTwoTuple]
      | struct elems =>
          cases elems with
          | nil => simp [isTwoTuple, TyList.length]
          | cons n0 ta rest =>
              cases rest with
              | nil => simp [isTwoTuple, TyList.length]
              | cons n1 tc rest2 =>
                  cases rest2 with
                  | cons n2 td rest3 => simp [isTwoTuple, TyList.length]
                  | nil =>
                      by_cases hc : tc = p.type_signature.result
                      · simp only [isTwoTuple_pair, if_true, getItem,
                          TyList.get?, hc, beq_self_eq_true, Bool.true_and]
                        cases hr : isTwoTuple w.type_signature.result <;>
                          simp [hr]
                      · simp [getItem, TyList.get?, hc]

theorem checkAccumulate_isOk (assignable : Ty → Ty → Bool)
    (z a w : Computation) :
    (checkAccumulate assignable z a w).isOk =
      (specI5 assignable z a w && specI6 assignable a) := by
  unfold checkAccumulate specI5 specI6
  cases hp : a.type_signature.parameter with
  | none => simp [check_len]
  | some t =>
      cases t with
      | tensor d s => simp [check_len]
      | seq e => simp [check_len]
      | func q r2 => simp [check_len]
      | struct elems =>
          cases elems with
          | nil => simp [check_len, TyList.length]
          | cons n0 a' rest =>
              cases rest with
              | nil => simp [check_len, TyList.length]
              | cons n1 u' rest2 =>
                  cases rest2 with
                  | cons n2 x rest3 => simp [check_len, TyList.length]
                  | nil =>
                      simp only [check_len, TyList.length, getParamItem,
                        getItem, TyList.get?, Nat.zero_add, if_pos rfl]
                      cases hz : assignable a' z.type_signature.result with
                      | false =>
                          simp [check_assignable_from, hz]
                      | true =>
                          simp only [check_assignable_from, hz, if_true,
                            Bool.true_and]
                          cases hw : w.type_signature.result with
                          | tensor d s => simp
                          | seq e => simp
                          | func q r2 => simp
                          | struct elems2 =>
                              cases elems2 with
                              | nil => simp [TyList.get?]
                              | cons nw w0 restw =>
                                  simp only [TyList.get?]
                                  cases w0 with
                                  | tensor d s => simp
                                  | seq e => simp
                                  | func q r2 => simp
                                  | struct elems3 =>
                                      cases elems3 with
                                      | nil => simp [TyList.get?]
                                      | cons m0 uu rest4 =>
                                          simp only [TyList.get?]
                                          by_cases hu : u' = uu
                                          · simp only [hu, if_pos rfl,
                                              beq_self_eq_true, Bool.true_and]
                                            cases hz2 : assignable a'
                                                a.type_signature.result <;>
                                              simp [check_assignable_from, hz2]
                                          · simp [hu]

theorem checkMerge_isOk (assignable : Ty → Ty → Bool) (a m : Computation) :
    (checkMerge assignable a m).isOk = specI7 assignable a m := by
  unfold checkMerge specI7
  cases hp : m.type_signature.parameter with
  | none => simp [check_len]
  | some t =>
      cases t with
      | tensor d s => simp [check_len]
      | seq e => simp [check_len]
      | func q r2 => simp [check_len]
      | struct elems =>
          cases elems with
          | nil => simp [check_len, TyList.length]
          | cons n0 m0 rest =>
              cases rest with
              | nil => simp [check_len, TyList.length]
              | cons n1 m1 rest2 =>
                  cases rest2 with
                  | cons n2 x rest3 => simp [check_len, TyList.length]
                  | nil =>
                      simp only [check_len, TyList.length, getParamItem,
                        getItem, TyList.get?, Nat.zero_add, if_pos rfl]
                      cases h1 : assignable m0 a.type_signature.result with
                      | false => simp [check_assignable_from, h1]
                      | true =>
                          cases h2 : assignable m1 a.type_signature.result with
                          | false => simp [check_assignable_from, h1, h2]
                          | true =>
                              cases h3 : assignable m0 m.type_signature.result <;>
                                simp [check_assignable_from, h1, h2, h3]

theorem checkReport_isOk (assignable : Ty → Ty → Bool) (m r : Computation) :
    (checkReport assignable m r).isOk = specI8 assignable m r := by
  unfold checkReport specI8 check_assignable_param
  cases hp : r.type_signature.parameter with
  | none => simp
  | some t =>
      cases h : assignable t m.type_signature.result <;>
        simp [check_assignable_from, h]

theorem checkUpdate_isOk (i r w u : Computation) :
    (checkUpdate i r w u).isOk = (specI10 i r w u && specI11 i u) := by
  unfold checkUpdate specI10 specI11 sideOutputOf
  cases hw : w.type_signature.result with
  | tensor d s => simp [getItem]
  | seq e => simp [getItem]
  | func q r2 => simp [getItem]
  | struct elems =>
      cases elems with
      | nil => simp [getItem, TyList.get?]
      | cons nw w0 restw =>
          simp only [getItem, TyList.get?]
          cases w0 with
          | tensor d s => simp
          | seq e => simp
          | func q r2 => simp
          | struct elems3 =>
              cases elems3 with
              | nil => simp [TyList.get?]
              | cons m0 t0 rest4 =>
                  cases rest4 with
                  | nil => simp [TyList.get?]
                  | cons m1 s rest5 =>
                      simp only [TyList.get?]
                      by_cases hup : u.type_signature.parameter =
                          some (toTypePair i.type_signature.result
                            (toTypePair r.type_signature.result s))
                      · simp only [hup, if_pos rfl, beq_self_eq_true,
                          Bool.true_and]
                        cases hur : u.type_signature.result with
                        | tensor d2 s2 => simp [isTwoTuple]
                        | seq e2 => simp [isTwoTuple]
                        | func q2 r2 => simp [isTwoTuple]
                        | struct elems5 =>
                            cases elems5 with
                            | nil => simp [isTwoTuple, TyList.length]
                            | cons p0 s' rest6 =>
                                cases rest6 with
                                | nil => simp [isTwoTuple, TyList.length]
                                | cons p1 x2 rest7 =>
                                    cases rest7 with
                                    | cons p2 y2 rest8 =>
                                        simp [isTwoTuple, TyList.length]
                                    | nil =>
                                        simp only [isTwoTuple_pair, if_true,
                                          getItem, TyList.get?]
                                        by_cases hs : s' =
                                            i.type_signature.result
                                        · simp [hs]
                                        · simp [hs]
                      · simp [hup]

theorem loop_isOk_iff_specI12 (i p w z a m r b u : Computation)
    (hwf : ∀ s ∈ stageList i p w z a m r b u, s.2.wf = true) :
    ((checkKindLoop (stageList i p w z a m r b u)).isOk = true ↔
      specI12 i p w z a m r b u = true) := by
  rw [checkKindLoop_isOk_iff]
  unfold specI12
  simp only [stageList, List.mem_cons, List.not_mem_nil, forall_eq_or_imp,
    List.all_cons, List.all_nil, Bool.and_eq_true, beq_iff_eq, Bool.and_true,
    and_true, Computation.wf, IsEmpty.forall_iff, implies_true] at hwf ⊢
  constructor <;> intro h <;> tauto

/-- C1 (amended): for nine handles that pass the per-handle representation
checks, construction succeeds exactly when the spec invariants hold with the
niladicity half of I4 removed — the constructor never inspects
`zero.parameter`, so I4 is not among the enforced invariants. -/
theorem construct_succeeds_iff_checked_invariants (assignable : Ty → Ty → Bool)
    (i p w z a m r b u : Computation)
    (hwf : ∀ s ∈ stageList i p w z a m r b u, s.2.wf = true) :
    ((construct assignable i p w z a m r b u).isOk = true ↔
      specInvariantsChecked assignable i p w z a m r b u = true) := by
  rw [construct_isOk, checkPrepare_isOk, checkWorkSignature_isOk,
    checkAccumulate_isOk, checkMerge_isOk, checkReport_isOk, checkUpdate_isOk]
  unfold specInvariantsChecked
  simp only [Bool.and_eq_true]
  rw [and_congr_left_iff.mpr (fun _ => loop_isOk_iff_specI12 i p w z a m r b u hwf)]
  unfold specI9
  tauto

/-- C1 (counterexample): a concrete input on which construction succeeds
although spec invariant I4 fails (the `zero` stage takes an `int32`
argument), refuting "construction succeeds iff I1 to I12 all hold". -/
theorem construct_accepts_non_niladic_zero :
    (construct eqOracle initBase prepareBase workBase
        (tfComp (some int32) int32) accumulateBase mergeBase reportBase
        bitwidthBase updateBase).isOk = true ∧
    specInvariants eqOracle initBase prepareBase workBase
        (tfComp (some int32) int32) accumulateBase mergeBase reportBase
        bitwidthBase updateBase = false :=
  ⟨rfl, rfl⟩

/-- Witness for C1's amended theorem at the baseline fixture. -/
theorem construct_succeeds_iff_checked_invariants_witness :
    (construct eqOracle initBase prepareBase workBase zeroBase accumulateBase
      mergeBase reportBase bitwidthBase updateBase).isOk = true :=
  (construct_succeeds_iff_checked_invariants eqOracle initBase prepareBase
    workBase zeroBase accumulateBase mergeBase reportBase bitwidthBase
    updateBase (by decide)).mpr (by decide)

/-- C2: when every handle passes the per-handle representation checks and at
least one handle's kind tag is not `'tensorflow'`, construction fails with
the kind-mismatch error — with no assumption whatsoever on the nine type
signatures, so the kind check precedes every type-content invariant. -/
theorem kind_mismatch_before_type_checks (assignable : Ty → Ty → Bool)
    (i p w z a m r b u : Computation)
    (hwf : ∀ s ∈ stageList i p w z a m r b u, s.2.wf = true)
    (hbad : ∃ s ∈ stageList i p w z a m r b u,
      s.2.which_comp ≠ some "tensorflow") :
    ∃ k, k ≠ some "tensorflow" ∧
      construct assignable i p w z a m r b u = .error (.notTensorFlow k) := by
  obtain ⟨k, hk, hloop⟩ := checkKindLoop_error_of_bad hwf hbad
  exact ⟨k, hk, construct_of_loop_error hloop⟩

/-- Witness for C2: the baseline with an intrinsic-tagged `zero` stage. -/
theorem kind_mismatch_before_type_checks_witness :
    ∃ k, k ≠ some "tensorflow" ∧
      construct eqOracle initBase prepareBase workBase
        (Computation.setKind zeroBase (some "intrinsic")) accumulateBase
        mergeBase reportBase bitwidthBase updateBase =
        .error (.notTensorFlow k) :=
  kind_mismatch_before_type_checks eqOracle initBase prepareBase workBase
    (Computation.setKind zeroBase (some "intrinsic")) accumulateBase mergeBase
    reportBase bitwidthBase updateBase (by decide)
    ⟨("zero", Computation.setKind zeroBase (some "intrinsic")), by decide⟩

/-- C9 (counterexample): two inputs whose only flaw is a non-TensorFlow kind
on a different stage (`zero` in the first, `accumulate` in the second)
produce the very same error value, which therefore cannot identify the
offending stage's label; it carries only the observed kind. -/
theorem kind_error_does_not_name_stage :
    construct eqOracle initBase prepareBase workBase
        (Computation.setKind zeroBase (some "xla")) accumulateBase mergeBase
        reportBase bitwidthBase updateBase =
      .error (.notTensorFlow (some "xla")) ∧
    construct eqOracle initBase prepareBase workBase zeroBase
        (Computation.setKind accumulateBase (some "xla")) mergeBase
        reportBase bitwidthBase updateBase =
      .error (.notTensorFlow (some "xla")) :=
  ⟨rfl, rfl⟩

/-- For a stage list whose prefix is all plain TensorFlow and whose next
entry is well formed with a non-TensorFlow kind, the per-handle loop stops
exactly there, reporting that handle's observed kind. -/
theorem checkKindLoop_first_bad {pre post : List (String × Computation)}
    {lbl : String} {c : Computation}
    (hwf : ∀ s ∈ pre ++ (lbl, c) :: post, s.2.wf = true)
    (hpre : ∀ s ∈ pre, s.2.which_comp = some "tensorflow")
    (hc : c.which_comp ≠ some "tensorflow") :
    checkKindLoop (pre ++ (lbl, c) :: post) =
      .error (.notTensorFlow c.which_comp) := by
  induction pre with
  | nil =>
      have h := hwf (lbl, c) (by simp)
      simp only [Computation.wf, Bool.and_eq_true] at h
      simp [checkKindLoop, h.1, h.2, hc]
  | cons hd tl ih =>
      obtain ⟨label2, c2⟩ := hd
      have h := hwf (label2, c2) (by simp)
      simp only [Computation.wf, Bool.and_eq_true] at h
      have hk := hpre (label2, c2) (List.mem_cons_self _ _)
      simp only [List.cons_append, checkKindLoop, h.1, h.2, if_true]
      rw [if_pos hk]
      simpa using ih (fun s hs => hwf s (List.mem_cons_of_mem _ hs))
        (fun s hs => hpre s (List.mem_cons_of_mem _ hs))

/-- C9 (amended): the kind-mismatch error identifies the observed kind but
not the stage: for any decomposition of the stage list into a prefix of
plain-TensorFlow stages followed by a well-formed handle with a
non-TensorFlow kind, construction fails with `notTensorFlow` carrying
exactly that handle's observed kind tag — the error's only payload. -/
theorem kind_error_names_observed_kind (assignable : Ty → Ty → Bool)
    (i p w z a m r b u : Computation)
    (pre post : List (String × Computation)) (lbl : String) (c : Computation)
    (hsplit : stageList i p w z a m r b u = pre ++ (lbl, c) :: post)
    (hwf : ∀ s ∈ stageList i p w z a m r b u, s.2.wf = true)
    (hpre : ∀ s ∈ pre, s.2.which_comp = some "tensorflow")
    (hc : c.which_comp ≠ some "tensorflow") :
    construct assignable i p w z a m r b u =
      .error (.notTensorFlow c.which_comp) := by
  refine construct_of_loop_error ?_
  rw [hsplit]
  exact checkKindLoop_first_bad (hsplit ▸ hwf) hpre hc

/-- Witness for C9's amended theorem: a composite-tagged `accumulate`. -/
theorem kind_error_names_observed_kind_witness :
    construct eqOracle initBase prepareBase workBase zeroBase
        (Computation.setKind accumulateBase (some "intrinsic")) mergeBase
        reportBase bitwidthBase updateBase =
      .error (.notTensorFlow (some "intrinsic")) :=
  kind_error_names_observed_kind eqOracle initBase prepareBase workBase
    zeroBase (Computation.setKind accumulateBase (some "intrinsic")) mergeBase
    reportBase bitwidthBase updateBase
    [("initialize", initBase), ("prepare", prepareBase), ("work", workBase),
     ("zero", zeroBase)]
    [("merge", mergeBase), ("report", reportBase),
     ("bitwidth", bitwidthBase), ("update", updateBase)]
    "accumulate" (Computation.setKind accumulateBase (some "intrinsic"))
    (by decide) (by decide) (by decide) (by decide)

/-- C10: if all nine handles are `Computation` instances, every handle that
carries an embedded proto is plain TensorFlow, and some handle's embedded
proto is missing, then construction fails with the `AssertionError` — the
kind tag of the malformed handle is left entirely unconstrained, so the
malformedness check fires before that handle's kind tag is inspected. -/
theorem missing_proto_assertion_before_kind (assignable : Ty → Ty → Bool)
    (i p w z a m r b u : Computation)
    (h1 : ∀ s ∈ stageList i p w z a m r b u, s.2.is_computation = true)
    (h2 : ∀ s ∈ stageList i p w z a m r b u,
      s.2.has_proto = true → s.2.which_comp = some "tensorflow")
    (h3 : ∃ s ∈ stageList i p w z a m r b u, s.2.has_proto = false) :
    construct assignable i p w z a m r b u = .error .missingProtoAssertion :=
  construct_of_loop_error (checkKindLoop_missing_proto h1 h2 h3)

/-- Witness for C10: a proto-less `prepare` that even carries a
non-TensorFlow kind tag still yields the assertion, not the kind error. -/
theorem missing_proto_assertion_before_kind_witness :
    construct eqOracle initBase
        (⟨true, false, some "xla", ⟨some int32, int32⟩⟩ : Computation) workBase
        zeroBase accumulateBase mergeBase reportBase bitwidthBase updateBase =
      .error .missingProtoAssertion :=
  missing_proto_assertion_before_kind eqOracle initBase
    (⟨true, false, some "xla", ⟨some int32, int32⟩⟩ : Computation) workBase
    zeroBase accumulateBase mergeBase reportBase bitwidthBase updateBase
    (by decide) (by decide)
    ⟨("prepare", ⟨true, false, some "xla", ⟨some int32, int32⟩⟩),
      by decide, by decide⟩

/-- C3 (counterexample): a concrete input whose `zero` stage takes an
`int32` argument, violating niladicity (spec I4), is accepted. -/
theorem zero_parameter_unchecked_counterexample :
    (construct eqOracle initBase prepareBase workBase
        (tfComp (some int32) int32) accumulateBase mergeBase reportBase
        bitwidthBase updateBase).isOk = true ∧
    (tfComp (some int32) int32).type_signature.parameter ≠ none ∧
    specI4 (tfComp (some int32) int32) = false :=
  ⟨rfl, by decide, rfl⟩

/-- C3 (amended): construction never constrains `zero`'s parameter — the
success/error status of `construct` is unchanged under replacing the
parameter of the `zero` stage's signature by anything whatsoever. -/
theorem construct_ignores_zero_parameter (assignable : Ty → Ty → Bool)
    (i p w z a m r b u : Computation) (q : Option Ty) :
    statusOf (construct assignable i p w (z.setParam q) a m r b u) =
      statusOf (construct assignable i p w z a m r b u) := by
  have hloop : checkKindLoop (stageList i p w (z.setParam q) a m r b u) =
      checkKindLoop (stageList i p w z a m r b u) := by
    simp [stageList, checkKindLoop, Computation.setParam]
  have hacc : checkAccumulate assignable (z.setParam q) a w =
      checkAccumulate assignable z a w := rfl
  unfold construct
  rw [hloop, hacc]
  simp only [checkZero, checkBitwidth]
  cases checkKindLoop (stageList i p w z a m r b u)
  case error e => rfl
  case ok _ =>
  cases checkPrepare i p
  case error e => rfl
  case ok _ =>
  cases checkWorkSignature p w
  case error e => rfl
  case ok _ =>
  cases checkAccumulate assignable z a w
  case error e => rfl
  case ok _ =>
  cases checkMerge assignable a m
  case error e => rfl
  case ok _ =>
  cases checkReport assignable m r
  case error e => rfl
  case ok _ =>
  cases checkUpdate i r w u
  case error e => rfl
  case ok _ => rfl

/-- C6: construction is atomic — for any oracle and any nine handles the
outcome is either the fully populated aggregate holding exactly the nine
supplied handles, or an error and no aggregate at all. -/
theorem construct_atomic (assignable : Ty → Ty → Bool)
    (i p w z a m r b u : Computation) :
    construct assignable i p w z a m r b u =
      .ok ⟨i, p, w, z, a, m, r, b, u⟩ ∨
    ∃ e, construct assignable i p w z a m r b u = .error e := by
  unfold construct
  simp only [checkZero, checkBitwidth]
  cases checkKindLoop (stageList i p w z a m r b u)
  case error e => exact Or.inr ⟨e, rfl⟩
  case ok _ =>
  cases checkPrepare i p
  case error e => exact Or.inr ⟨e, rfl⟩
  case ok _ =>
  cases checkWorkSignature p w
  case error e => exact Or.inr ⟨e, rfl⟩
  case ok _ =>
  cases checkAccumulate assignable z a w
  case error e => exact Or.inr ⟨e, rfl⟩
  case ok _ =>
  cases checkMerge assignable a m
  case error e => exact Or.inr ⟨e, rfl⟩
  case ok _ =>
  cases checkReport assignable m r
  case error e => exact Or.inr ⟨e, rfl⟩
  case ok _ =>
  cases checkUpdate i r w u
  case error e => exact Or.inr ⟨e, rfl⟩
  case ok _ => exact Or.inl rfl

theorem specI10_elim {i r w u : Computation} (h : specI10 i r w u = true) :
    ∃ s, sideOutputOf w.type_signature.result = some s ∧
      u.type_signature.parameter =
        some (toTypePair i.type_signature.result
          (toTypePair r.type_signature.result s)) := by
  unfold specI10 at h
  split at h
  · next s heq => exact ⟨s, heq, by simpa using h⟩
  · simp at h

/-- C5: every accepted input satisfies I10 — the `update` parameter equals
the two-tuple of the first stage's result and the two-tuple of the `report`
result and the side-output type taken from the `work` result; by
contraposition, any input whose `update` parameter differs is rejected. -/
theorem update_parameter_characterization (assignable : Ty → Ty → Bool)
    (i p w z a m r b u : Computation) (cf : CanonicalForm)
    (h : construct assignable i p w z a m r b u = .ok cf) :
    ∃ s, sideOutputOf w.type_signature.result = some s ∧
      u.type_signature.parameter =
        some (toTypePair i.type_signature.result
          (toTypePair r.type_signature.result s)) := by
  have hok : (construct assignable i p w z a m r b u).isOk = true := by
    rw [h]; rfl
  rw [construct_isOk] at hok
  simp only [Bool.and_eq_true] at hok
  have hUpd : (checkUpdate i r w u).isOk = true := by tauto
  rw [checkUpdate_isOk] at hUpd
  simp only [Bool.and_eq_true] at hUpd
  exact specI10_elim hUpd.1

/-- Witness for C5 at the baseline fixture. -/
theorem update_parameter_characterization_witness :
    ∃ s, sideOutputOf workBase.type_signature.result = some s ∧
      updateBase.type_signature.parameter =
        some (toTypePair initBase.type_signature.result
          (toTypePair reportBase.type_signature.result s)) :=
  update_parameter_characterization eqOracle initBase prepareBase workBase
    zeroBase accumulateBase mergeBase reportBase bitwidthBase updateBase
    ⟨initBase, prepareBase, workBase, zeroBase, accumulateBase, mergeBase,
     reportBase, bitwidthBase, updateBase⟩ rfl

/-- C7: for every canonical form and every rendering of type signatures,
`summary` emits exactly nine lines, one per stage in the fixed order, each
line being the ten-character left-justified label, a colon and a space, and
a rendered type signature. -/
theorem summary_lines (cf : CanonicalForm) (rend : TypeSignature → String) :
    cf.summary rend = [
      "initialize: " ++ rend cf.initialize_.type_signature,
      "prepare   : " ++ rend cf.prepare.type_signature,
      "work      : " ++ rend cf.work.type_signature,
      "zero      : " ++ rend cf.zero.type_signature,
      "accumulate: " ++ rend cf.accumulate.type_signature,
      "merge     : " ++ rend cf.merge.type_signature,
      "report    : " ++ rend cf.report.type_signature,
      "bitwidth  : " ++ rend cf.bitwidth.type_signature,
      "update    : " ++ rend cf.initialize_.type_signature] := by
  unfold CanonicalForm.summary
  simp only [List.map]
  have e1 : leftJustify10 "initialize" ++ ": " = "initialize: " := by decide
  have e2 : leftJustify10 "prepare" ++ ": " = "prepare   : " := by decide
  have e3 : leftJustify10 "work" ++ ": " = "work      : " := by decide
  have e4 : leftJustify10 "zero" ++ ": " = "zero      : " := by decide
  have e5 : leftJustify10 "accumulate" ++ ": " = "accumulate: " := by decide
  have e6 : leftJustify10 "merge" ++ ": " = "merge     : " := by decide
  have e7 : leftJustify10 "report" ++ ": " = "report    : " := by decide
  have e8 : leftJustify10 "bitwidth" ++ ": " = "bitwidth  : " := by decide
  have e9 : leftJustify10 "update" ++ ": " = "update    : " := by decide
  rw [e1, e2, e3, e4, e5, e6, e7, e8, e9]

/-- C8: the ninth (`update`) line of the summary renders the first stage's
type signature, and the whole summary is unchanged under replacing the
`update` handle — the source builds the `update` line from
`self.initialize`. -/
theorem summary_update_line_uses_first_stage (cf : CanonicalForm)
    (rend : TypeSignature → String) (u' : Computation) :
    (cf.summary rend).get? 8 =
      some ("update    : " ++ rend cf.initialize_.type_signature) ∧
    (cf.setUpdate u').summary rend = cf.summary rend := by
  constructor
  · unfold CanonicalForm.summary
    simp only [List.map, List.get?]
    have e9 : leftJustify10 "update" ++ ": " = "update    : " := by decide
    rw [e9]
  · rfl

/-! ### Fault-freedom infrastructure for C4 -/

theorem isTwoTuple_elim {t : Ty} (h : isTwoTuple t = true) :
    ∃ n0 a n1 b, t = .struct (.cons n0 a (.cons n1 b .nil)) := by
  rw [isTwoTuple_shape] at h
  split at h
  · rename_i n0 a n1 b
    exact ⟨n0, a, n1, b, rfl⟩
  · exact absurd h (by simp)

theorem specI3_elim {w : Computation} (h : specI3 w = true) :
    ∃ n0 t0 n1 t1,
      w.type_signature.result = .struct (.cons n0 t0 (.cons n1 t1 .nil)) := by
  rw [specI3_eq] at h
  exact isTwoTuple_elim h

theorem workNestedShapeOk_elim {n0 : Option String} {t0 : Ty} {rest : TyList}
    (h : workNestedShapeOk (.struct (.cons n0 t0 rest)) = true) :
    ∃ na a nb b rest2, t0 = .struct (.cons na a (.cons nb b rest2)) := by
  cases t0 with
  | struct elems3 =>
      cases elems3 with
      | nil => simp [workNestedShapeOk] at h
      | cons na a rest4 =>
          cases rest4 with
          | nil => simp [workNestedShapeOk] at h
          | cons nb b rest5 => exact ⟨na, a, nb, b, rest5, rfl⟩
  | tensor d s2 => simp [workNestedShapeOk] at h
  | seq e2 => simp [workNestedShapeOk] at h
  | func q r2 => simp [workNestedShapeOk] at h

theorem TyList.shape_of_length_two {l : TyList} (h : l.length = 2) :
    ∃ n0 a n1 b, l = .cons n0 a (.cons n1 b .nil) := by
  cases l with
  | nil => simp [TyList.length] at h
  | cons n0 a rest =>
      cases rest with
      | nil => simp [TyList.length] at h
      | cons n1 b rest2 =>
          cases rest2 with
          | nil => exact ⟨n0, a, n1, b, rfl⟩
          | cons n2 c rest3 => simp [TyList.length] at h

theorem check_len_error_struct {p : Option Ty} {n : Nat} {e : Err}
    (hp : isSomeStruct p = true) (h : check_len p n = .error e) :
    ∃ m, e = .checkLenFailed n m := by
  cases p with
  | none => simp [isSomeStruct] at hp
  | some t =>
      cases t with
      | struct elems =>
          simp only [check_len] at h
          split at h
          · exact absurd h (by simp)
          · injection h with h
            exact ⟨_, h.symm⟩
      | tensor d s2 => simp [isSomeStruct] at hp
      | seq e2 => simp [isSomeStruct] at hp
      | func q r2 => simp [isSomeStruct] at hp

theorem check_len_two_ok {p : Option Ty} {v : Unit} (h : check_len p 2 = .ok v) :
    ∃ n0 a n1 b, p = some (.struct (.cons n0 a (.cons n1 b .nil))) := by
  cases p with
  | none => simp [check_len] at h
  | some t =>
      cases t with
      | struct elems =>
          simp only [check_len] at h
          split at h
          · rename_i hlen
            obtain ⟨n0, a, n1, b, rfl⟩ := TyList.shape_of_length_two hlen
            exact ⟨n0, a, n1, b, rfl⟩
          · exact absurd h (by simp)
      | tensor d s2 => simp [check_len] at h
      | seq e2 => simp [check_len] at h
      | func q r2 => simp [check_len] at h

theorem checkPrepare_no_fault {i p : Computation} {e : Err}
    (h : checkPrepare i p = .error e) : e.isFault = false := by
  unfold checkPrepare at h
  split at h
  · exact absurd h (by simp)
  · injection h with h; subst h; rfl

theorem checkWorkSignature_no_fault {p w : Computation} {e : Err}
    (h : checkWorkSignature p w = .error e) : e.isFault = false := by
  unfold checkWorkSignature at h
  split at h
  · rename_i t
    split at h
    · rename_i htwo
      obtain ⟨n0, a, n1, b, rfl⟩ := isTwoTuple_elim htwo
      simp only [getItem, TyList.get?] at h
      split at h
      · split at h
        · exact absurd h (by simp)
        · injection h with h; subst h; rfl
      · injection h with h; subst h; rfl
    · injection h with h; subst h; rfl
  · injection h with h; subst h; rfl

theorem checkMerge_no_fault {assignable : Ty → Ty → Bool} {a m : Computation}
    {e : Err} (hm : isSomeStruct m.type_signature.parameter = true)
    (h : checkMerge assignable a m = .error e) : e.isFault = false := by
  unfold checkMerge at h
  split at h
  · rename_i e1 heq
    injection h with h; subst h
    obtain ⟨mm, rfl⟩ := check_len_error_struct hm heq
    rfl
  · rename_i v heq
    obtain ⟨n0, m0, n1, m1, hshape⟩ := check_len_two_ok heq
    rw [hshape] at h
    simp only [getParamItem, getItem, TyList.get?] at h
    split at h
    · rename_i e2 heq2
      injection h with h; subst h
      rw [check_assignable_from_error heq2]; rfl
    · split at h
      · rename_i e2 heq2
        injection h with h; subst h
        rw [check_assignable_from_error heq2]; rfl
      · rw [check_assignable_from_error h]; rfl

theorem checkReport_no_fault {assignable : Ty → Ty → Bool}
    {m r : Computation} {e : Err}
    (hr : r.type_signature.parameter.isSome = true)
    (h : checkReport assignable m r = .error e) : e.isFault = false := by
  unfold checkReport at h
  cases hp : r.type_signature.parameter with
  | none => rw [hp] at hr; simp at hr
  | some t =>
      rw [hp] at h
      simp only [check_assignable_param] at h
      rw [check_assignable_from_error h]; rfl

theorem checkAccumulate_no_fault {assignable : Ty → Ty → Bool}
    {z a w : Computation} {e : Err}
    (ha : isSomeStruct a.type_signature.parameter = true)
    (h3 : specI3 w = true)
    (hwn : workNestedShapeOk w.type_signature.result = true)
    (h : checkAccumulate assignable z a w = .error e) : e.isFault = false := by
  obtain ⟨cn0, t0, cn1, t1, hres⟩ := specI3_elim h3
  have hnest := hwn
  rw [hres] at hnest
  obtain ⟨na, ua, nb, ub, rest2, ht0⟩ := workNestedShapeOk_elim hnest
  unfold checkAccumulate at h
  split at h
  · rename_i e1 heq
    injection h with h; subst h
    obtain ⟨mm, rfl⟩ := check_len_error_struct ha heq
    rfl
  · rename_i v heq
    obtain ⟨n0, a0, n1, u1, hshape⟩ := check_len_two_ok heq
    rw [hshape, hres, ht0] at h
    simp only [getParamItem, getItem, TyList.get?] at h
    split at h
    · rename_i e2 heq2
      injection h with h; subst h
      rw [check_assignable_from_error heq2]; rfl
    · split at h
      · rw [check_assignable_from_error h]; rfl
      · injection h with h; subst h; rfl

theorem checkUpdate_no_fault {i r w u : Computation} {e : Err}
    (h3 : specI3 w = true)
    (hwn : workNestedShapeOk w.type_signature.result = true)
    (h : checkUpdate i r w u = .error e) : e.isFault = false := by
  obtain ⟨cn0, t0, cn1, t1, hres⟩ := specI3_elim h3
  have hnest := hwn
  rw [hres] at hnest
  obtain ⟨na, ua, nb, ub, rest2, ht0⟩ := workNestedShapeOk_elim hnest
  unfold checkUpdate at h
  rw [hres, ht0] at h
  simp only [getItem, TyList.get?] at h
  split at h
  · split at h
    · rename_i htwo
      obtain ⟨p0, s', p1, x2, hur⟩ := isTwoTuple_elim htwo
      rw [hur] at h
      simp only [getItem, TyList.get?] at h
      split at h
      · exact absurd h (by simp)
      · injection h with h; subst h; rfl
    · injection h with h; subst h; rfl
  · injection h with h; subst h; rfl

/-- C4 (amended): every directly indexed tuple shape is checked before the
indexing, so as long as the positions the source leaves unguarded are well
shaped — `accumulate` and `merge` have present struct parameters, `report`
has a present parameter, and the first element of the `work` result (when
the work result is a non-empty struct) is a struct of arity at least two —
construction never ends in a raw indexing or length fault. -/
theorem construct_no_fault_when_shapes_guarded (assignable : Ty → Ty → Bool)
    (i p w z a m r b u : Computation)
    (ha : isSomeStruct a.type_signature.parameter = true)
    (hm : isSomeStruct m.type_signature.parameter = true)
    (hr : r.type_signature.parameter.isSome = true)
    (hwn : workNestedShapeOk w.type_signature.result = true) :
    noFaultStatus (construct assignable i p w z a m r b u) = true := by
  cases hc : construct assignable i p w z a m r b u with
  | ok cf => rfl
  | error e =>
      suffices hf : e.isFault = false by simp [noFaultStatus, hf]
      rcases construct_error_cases hc with
        h0 | h1 | h2 | ⟨hW, h3⟩ | h4 | h5 | ⟨hW, h6⟩
      · exact checkKindLoop_error_no_fault h0
      · exact checkPrepare_no_fault h1
      · exact checkWorkSignature_no_fault h2
      · have hI3 : specI3 w = true := by
          rw [checkWorkSignature_isOk] at hW
          simp only [Bool.and_eq_true] at hW
          exact hW.2
        exact checkAccumulate_no_fault ha hI3 hwn h3
      · exact checkMerge_no_fault hm h4
      · exact checkReport_no_fault hr h5
      · have hI3 : specI3 w = true := by
          rw [checkWorkSignature_isOk] at hW
          simp only [Bool.and_eq_true] at hW
          exact hW.2
        exact checkUpdate_no_fault hI3 hwn h6

/-- Witness for C4's amended theorem at the baseline fixture. -/
theorem construct_no_fault_when_shapes_guarded_witness :
    noFaultStatus (construct eqOracle initBase prepareBase workBase zeroBase
      accumulateBase mergeBase reportBase bitwidthBase updateBase) = true :=
  construct_no_fault_when_shapes_guarded eqOracle initBase prepareBase
    workBase zeroBase accumulateBase mergeBase reportBase bitwidthBase
    updateBase (by decide) (by decide) (by decide) (by decide)

/-- C4 (counterexample): a `work` stage whose result is a two-tuple (so the
shape check I3 passes) but whose first element is the empty struct makes
the constructor fault with a raw `IndexError` at the unguarded subscript
`work.type_signature.result[0][0]` of line 340, instead of failing with a
shape-mismatch error. -/
theorem work_nested_indexing_fault :
    construct eqOracle initBase prepareBase
        (tfComp (some (toTypePair (.seq int32) int32))
          (toTypePair emptyStruct emptyStruct))
        zeroBase accumulateBase mergeBase reportBase bitwidthBase updateBase =
      .error .faultIndexError ∧
    Err.isFault .faultIndexError = true :=
  ⟨rfl, rfl⟩

end Mapreduce
